import Mathlib

/-
Verification of the natural-language specification of
EdenCyber/sec-105-feed (src/edgar_105_to_json.py) against a shallow
embedding of the script in Lean 4.

Modelling conventions:
  - HTTP and market-data calls are oracles passed as function arguments;
    a call that raises in Python is an oracle returning Except.error.
  - Python floats are modelled as rationals; machine-level float rounding
    is outside the scope of the embedded claims.
  - Calendar dates are modelled as integers (day numbers) with the
    convention that day 0 is a Monday, so a day d is a business day
    exactly when d mod 7 is in 0..4, matching pandas bdate_range.
  - While loops are embedded as fuel recursion; the wrappers supply fuel
    provably larger than the number of iterations the Python loop can
    perform, and fuel-stability lemmas show the results do not depend on
    the extra fuel.
-/

namespace Sec105Feed

/-- Faults raised by the Python code: HTTP transport errors raised by
raise_for_status or the json decoder, and the IndexError raised by
indexing a too-short list produced by str.split. -/
inductive Err where
  | httpErr : Err
  | indexErr : Err
  deriving DecidableEq

/-- s begins with the character sequence pat. -/
def startsWithSeq : List Char → List Char → Bool
  | [], _ => true
  | _ :: _, [] => false
  | p :: ps, c :: cs => p = c && startsWithSeq ps cs

/-- Non-greedy capture up to the literal close sequence, mirroring the
regex fragment (.*?)close with the default re semantics in which the dot
does not match a newline: returns the shortest newline-free text c such
that the input is c ++ close ++ rest, together with rest. -/
def captureNG (close : List Char) : List Char → Option (List Char × List Char)
  | [] => if startsWithSeq close [] then some ([], ([] : List Char).drop close.length) else none
  | c :: rest =>
    if startsWithSeq close (c :: rest) then some ([], (c :: rest).drop close.length)
    else if c = '\n' then none
    else (captureNG close rest).map (fun pr => (c :: pr.1, pr.2))

/-- The literal opening marker of the scraped pattern. -/
def info_open : List Char := "<div class=\"info\">".data

/-- The literal closing marker of the scraped pattern. -/
def info_close : List Char := "</div>".data

/-- Fuel-driven scan implementing re.findall of the info-div pattern:
at each position, if the opening literal matches, capture non-greedily up
to the closing literal and resume after the match; otherwise advance one
character. -/
def findAllInfoAux : ℕ → List Char → List (List Char)
  | 0, _ => []
  | _ + 1, [] => []
  | fuel + 1, c :: rest =>
    if startsWithSeq info_open (c :: rest) then
      match captureNG info_close ((c :: rest).drop info_open.length) with
      | some (cap, r) => cap :: findAllInfoAux fuel r
      | none => findAllInfoAux fuel rest
    else findAllInfoAux fuel rest

/-- All matches of the info-div regex in the page text. -/
def findAllInfo (s : List Char) : List (List Char) := findAllInfoAux s.length s

/-- First capture of the regex with a parenthesised non-greedy group as
used for ticker extraction: the first open parenthesis from which a close
parenthesis is reachable without crossing a newline, with the text in
between captured. -/
def firstParenGroup : List Char → Option (List Char)
  | [] => none
  | c :: rest =>
    if c = '(' then
      match captureNG [')'] rest with
      | some (cap, _) => some cap
      | none => firstParenGroup rest
    else firstParenGroup rest

/-- Python str.split on a single-character separator. -/
def splitOnChar (ch : Char) : List Char → List (List Char)
  | [] => [[]]
  | c :: rest =>
    let r := splitOnChar ch rest
    if c = ch then [] :: r
    else
      match r with
      | [] => [[c]]
      | h :: t => (c :: h) :: t

/-- The text before the first occurrence of a character, as in
s.split(ch) element zero. -/
def takeUntil (ch : Char) (s : List Char) : List Char := s.takeWhile (fun c => c ≠ ch)

/-- Python str.replace removing every dash, as in adsh.replace. -/
def stripDashes (s : String) : String := String.mk (s.data.filter (fun c => c ≠ '-'))

/-- One _source object of a search hit: the upstream fields the script
reads, each Option to model a possibly missing JSON key (the script
supplies defaults via dict.get). -/
structure HitSource where
  display_names : List String
  ciks : List String
  file_date : Option String
  form : Option String
  adsh : Option String
  deriving DecidableEq

/-- One element of hits.hits in the search response. The id field models
the _id key; none models both a missing key and a null value (both falsy
in the Python conditional expression). -/
structure Hit where
  source : HitSource
  id : Option String
  deriving DecidableEq

/-- One page of the search response: hits.hits and hits.total.value
(the script defaults the total to 0 when keys are absent; an oracle
models that by returning 0). -/
structure SearchPage where
  hits : List Hit
  total : ℕ
  deriving DecidableEq

/-- The query-parameter dictionary sent to the search endpoint. The
Python key named from is spelled from_off here because from is a
reserved word in Lean. -/
structure Query where
  q : String
  forms : String
  startdt : String
  enddt : String
  from_off : String
  size : ℕ
  sort : String
  deriving DecidableEq

/-- The per-filing dictionary appended to results in get_filings. -/
structure Record where
  company_name : String
  cik : String
  filing_date : String
  form_type : String
  filing_href : String
  document_href : String
  ticker : String
  published_timestamp : Option String
  deriving DecidableEq

/-- The fixed page size of the pagination loop. -/
def page_size : ℕ := 100

/-- The filing index-page URL derived from cik and accession number. -/
def filingHrefOf (cik adsh : String) : String :=
  "https://www.sec.gov/Archives/edgar/data/" ++ cik ++ "/" ++ stripDashes adsh
    ++ "/" ++ adsh ++ "-index.htm"

/-- The primary-document URL derived from cik, accession number and the
document id. -/
def documentHrefOf (cik adsh doc_id : String) : String :=
  "https://www.sec.gov/Archives/edgar/data/" ++ cik ++ "/" ++ stripDashes adsh
    ++ "/" ++ doc_id

/-- The doc_id expression of get_filings: N/A when _id is missing or
empty (falsy), otherwise element 1 of the colon-split of _id, which
raises IndexError when the split has fewer than two parts. -/
def docIdOf : Option String → Except Err String
  | none => .ok "N/A"
  | some s =>
    if s = "" then .ok "N/A"
    else
      match (splitOnChar ':' s.data)[1]? with
      | some d => .ok (String.mk d)
      | none => .error .indexErr

/-- The ticker-derivation block of get_filings: from the first display
name, take the first parenthesised group; if it exists and does not
start with the literal CIK-and-space, the ticker is the text before the
first comma of the group; otherwise N/A. -/
def extract_ticker (display_names : List String) : String :=
  match display_names with
  | [] => "N/A"
  | n :: _ =>
    match firstParenGroup n.data with
    | none => "N/A"
    | some g =>
      if startsWithSeq "CIK ".data g then "N/A"
      else String.mk (takeUntil ',' g)

/-- The scrape step of get_timestamp_from_index: the second info-div
match of the page when at least two exist, null otherwise. -/
def parse_published (text : String) : Option String :=
  let ms := findAllInfo text.data
  if 2 ≤ ms.length then some (String.mk (ms.getD 1 []))
  else none

/-- get_timestamp_from_index: fetch the index page (an HTTP failure
raises, modelled as Except.error), then scrape it. -/
def get_timestamp_from_index (fetch : String → Except Err String) (index_href : String) :
    Except Err (Option String) :=
  match fetch index_href with
  | .error e => .error e
  | .ok text => .ok (parse_published text)

/-- The body of the per-hit for loop of get_filings: field extraction
with N/A defaults, URL derivation, ticker derivation, and the secondary
timestamp fetch. Any exception escapes, as in the source. -/
def processHit (fetch : String → Except Err String) (f : Hit) : Except Err Record :=
  let src := f.source
  let company_name := src.display_names.headD "N/A"
  let cik := src.ciks.headD "N/A"
  let filing_date := src.file_date.getD "N/A"
  let form_type := src.form.getD "N/A"
  let adsh := src.adsh.getD "N/A"
  match docIdOf f.id with
  | .error e => .error e
  | .ok doc_id =>
    let filing_href := filingHrefOf cik adsh
    let document_href := documentHrefOf cik adsh doc_id
    let ticker := extract_ticker src.display_names
    match get_timestamp_from_index fetch filing_href with
    | .error e => .error e
    | .ok published_timestamp =>
      .ok { company_name := company_name, cik := cik, filing_date := filing_date,
            form_type := form_type, filing_href := filing_href,
            document_href := document_href, ticker := ticker,
            published_timestamp := published_timestamp }

/-- The whole per-page for loop: process hits in order, stopping at the
first exception (which, in the source, propagates out of get_filings and
discards the partial batch). -/
def processHits (fetch : String → Except Err String) : List Hit → Except Err (List Record)
  | [] => .ok []
  | f :: fs =>
    match processHit fetch f with
    | .error e => .error e
    | .ok r =>
      match processHits fetch fs with
      | .error e => .error e
      | .ok rs => .ok (r :: rs)

/-- The query dictionary built for one page request. -/
def build_query (start_date end_date : String) (fetched : ℕ) : Query :=
  { q := "\"Material Cybersecurity Incidents\" OR \"Item 1.05\"",
    forms := "8-K",
    startdt := start_date,
    enddt := end_date,
    from_off := toString fetched,
    size := page_size,
    sort := "desc" }

/-- The pagination while loop of get_filings, with explicit fuel (the
wrapper supplies more fuel than the loop can consume, since fetched
strictly increases and the guard requires fetched below max_results).
The search oracle models session.get plus raise_for_status plus json
decoding of one page. -/
def get_filings_loop (search : Query → Except Err SearchPage)
    (fetch : String → Except Err String) (start_date end_date : String)
    (max_results : ℕ) : ℕ → ℕ → Option ℕ → List Record → Except Err (List Record)
  | 0, _, _, acc => .ok acc
  | fuel + 1, fetched, total_available, acc =>
    if fetched < max_results then
      match search (build_query start_date end_date fetched) with
      | .error e => .error e
      | .ok data =>
        let total_avail := total_available.getD data.total
        if data.hits.isEmpty then .ok acc
        else
          match processHits fetch data.hits with
          | .error e => .error e
          | .ok recs =>
            let fetched' := fetched + data.hits.length
            if total_avail ≤ fetched' ∨ data.hits.length < page_size then .ok (acc ++ recs)
            else get_filings_loop search fetch start_date end_date max_results
                   fuel fetched' (some total_avail) (acc ++ recs)
    else .ok acc

/-- get_filings: run the pagination loop from offset 0 with no total yet
and an empty accumulator. -/
def get_filings (search : Query → Except Err SearchPage)
    (fetch : String → Except Err String) (start_date end_date : String)
    (max_results : ℕ) : Except Err (List Record) :=
  get_filings_loop search fetch start_date end_date max_results (max_results + 1) 0 none []

/-- Weekday test under the convention that day 0 is a Monday; pandas
bdate_range keeps exactly Monday through Friday. -/
def isBusinessDay (d : ℤ) : Bool := d.emod 7 < 5

/-- pd.bdate_range normalized: the business days of the closed interval,
in ascending order. -/
def bdaysIn (lo hi : ℤ) : List ℤ :=
  ((List.range (hi + 1 - lo).toNat).map (fun k => lo + k)).filter (fun d => isBusinessDay d)

/-- df.loc lookup of the Close column at one date: first row of the
frame with that index, if any. -/
def lookupClose (d : ℤ) (df : List (ℤ × ℚ)) : Option ℚ :=
  (df.find? (fun p => p.1 = d)).map (fun p => p.2)

/-- The widening while loop of analyze_impact, fuel-recursive. The
download oracle models yf.download over ticker and a half-open date
range; an exception is Except.error. The branches mirror the source:
a download exception returns the all-null triple at once; an empty
frame, a missing window-end index entry, a failed boundary lookup
(KeyError) or a zero window-start close (ZeroDivisionError, caught by
the same except clause) widen both deltas by one and retry. An empty
business-day range makes strftime raise on NaT inside the try, which the
except clause turns into the all-null return. -/
def analyze_impact_loop (download : String → ℤ → ℤ → Except Err (List (ℤ × ℚ)))
    (ticker : String) (fd : ℤ) : ℕ → ℕ → ℕ → Option ℚ × Option ℚ × Option ℚ
  | 0, _, _ => (none, none, none)
  | fuel + 1, start_delta, end_delta =>
    if start_delta + end_delta < 10 then
      let dr := bdaysIn (fd - start_delta) (fd + end_delta)
      match dr.head?, dr.getLast? with
      | some mn, some mx =>
        match download ticker mn (mx + 1) with
        | .error _ => (none, none, none)
        | .ok df =>
          if df.isEmpty then
            analyze_impact_loop download ticker fd fuel (start_delta + 1) (end_delta + 1)
          else if (lookupClose mx df).isNone then
            analyze_impact_loop download ticker fd fuel (start_delta + 1) (end_delta + 1)
          else
            match lookupClose mn df, lookupClose mx df with
            | some before, some after =>
              if before = 0 then
                analyze_impact_loop download ticker fd fuel (start_delta + 1) (end_delta + 1)
              else (some before, some after, some ((after - before) / before * 100))
            | _, _ =>
              analyze_impact_loop download ticker fd fuel (start_delta + 1) (end_delta + 1)
      | _, _ => (none, none, none)
    else (none, none, none)

/-- analyze_impact: guard clauses for an unusable ticker, an unparseable
filing date (the parse oracle models pd.to_datetime with normalize,
returning the day number), and a filing date equal to the run date; then
the widening search from deltas one and one. Fuel 5 covers the 4
possible iterations plus the final guarded call. -/
def analyze_impact (download : String → ℤ → ℤ → Except Err (List (ℤ × ℚ)))
    (parse_date : String → Option ℤ) (today : ℤ)
    (ticker : Option String) (filing_date : String) : Option ℚ × Option ℚ × Option ℚ :=
  match ticker with
  | none => (none, none, none)
  | some t =>
    if t = "" ∨ t = "N/A" then (none, none, none)
    else
      match parse_date filing_date with
      | none => (none, none, none)
      | some fd =>
        if fd = today then (none, none, none)
        else analyze_impact_loop download t fd 5 1 1

/-- The timestamp string handed to analyze_impact in main: the or-chain
of published_timestamp, filing_date and the empty string under Python
truthiness, then element 0 of the space split. -/
def tsFor (r : Record) : String :=
  let base :=
    match r.published_timestamp with
    | some s => if s = "" then (if r.filing_date = "" then "" else r.filing_date) else s
    | none => if r.filing_date = "" then "" else r.filing_date
  String.mk (takeUntil ' ' base.data)

/-- One record extended with the three price fields set by main. -/
structure EnrichedRecord where
  filing : Record
  price_before : Option ℚ
  price_after : Option ℚ
  pct_change : Option ℚ
  deriving DecidableEq

/-- The enrichment step of main for one filing: run analyze_impact on
the record ticker and best-available date and attach the triple. -/
def enrich (download : String → ℤ → ℤ → Except Err (List (ℤ × ℚ)))
    (parse_date : String → Option ℤ) (today : ℤ) (r : Record) : EnrichedRecord :=
  match analyze_impact download parse_date today (some r.ticker) (tsFor r) with
  | (before, after, pct) =>
    { filing := r, price_before := before, price_after := after, pct_change := pct }

/-- The enrichment loop of main over the whole batch, in order. -/
def build_results (download : String → ℤ → ℤ → Except Err (List (ℤ × ℚ)))
    (parse_date : String → Option ℤ) (today : ℤ) (filings : List Record) :
    List EnrichedRecord :=
  filings.map (enrich download parse_date today)

/-
Concrete oracles and fixtures used by counterexamples and witnesses.
-/

instance {ε α : Type} [DecidableEq ε] [DecidableEq α] : DecidableEq (Except ε α) := fun
  | .error a, .error b =>
    if h : a = b then isTrue (by rw [h]) else isFalse (by intro he; cases he; exact h rfl)
  | .error _, .ok _ => isFalse (by intro h; cases h)
  | .ok _, .error _ => isFalse (by intro h; cases h)
  | .ok a, .ok b =>
    if h : a = b then isTrue (by rw [h]) else isFalse (by intro he; cases he; exact h rfl)

/-- Price oracle for the widening-behaviour counterexample: at the width
one window the frame holds only the window-end date, so the window-start
lookup raises KeyError; at the width two window both boundary closes are
present. -/
def dl_widen : String → ℤ → ℤ → Except Err (List (ℤ × ℚ)) :=
  fun _ lo _ => if lo = 1 then .ok [(3, 10)] else .ok [(0, 10), (4, 20)]

/-- Price oracle whose very first window already has both boundary
closes. -/
def dl_first : String → ℤ → ℤ → Except Err (List (ℤ × ℚ)) :=
  fun _ _ _ => .ok [(1, 10), (3, 20)]

/-- Price oracle that always raises. -/
def dl_fail : String → ℤ → ℤ → Except Err (List (ℤ × ℚ)) :=
  fun _ _ _ => .error .httpErr

/-- Price oracle whose frame holds a zero close at the window-start
date (the ZeroDivisionError case) and a valid window-end close. -/
def dl_zero : String → ℤ → ℤ → Except Err (List (ℤ × ℚ)) :=
  fun _ _ _ => .ok [(1, 0), (3, 20)]

/-- Date parse oracle returning a fixed Wednesday (day 2). -/
def parse_wed : String → Option ℤ := fun _ => some 2

/-- A hit with every upstream field present and well shaped. -/
def hit_good : Hit :=
  { source := { display_names := ["Good Co (GOOD)"], ciks := ["123"],
                file_date := some "2024-01-02", form := some "8-K",
                adsh := some "0001-24-000001" },
    id := some "0001-24-000001:doc.htm" }

/-- A hit whose _id is present and non-empty but has no colon
separator. -/
def hit_bad_id : Hit :=
  { source := hit_good.source, id := some "0001-24-000001doc.htm" }

/-- A hit with every upstream field missing. -/
def hit_empty : Hit :=
  { source := { display_names := [], ciks := [], file_date := none, form := none,
                adsh := none },
    id := none }

/-- Search oracle returning a single one-hit page. -/
def search_one : Query → Except Err SearchPage :=
  fun q => if q.from_off = "0" then .ok { hits := [hit_good], total := 1 }
           else .ok { hits := [], total := 1 }

/-- Search oracle whose first page holds two hits (total two). -/
def search_two : Query → Except Err SearchPage :=
  fun q => if q.from_off = "0" then .ok { hits := [hit_good, hit_good], total := 2 }
           else .ok { hits := [], total := 2 }

/-- Index-page oracle that always fails with an HTTP error. -/
def fetch_fail : String → Except Err String := fun _ => .error .httpErr

/-- Index-page oracle that always returns a page with no info divs. -/
def fetch_ok : String → Except Err String := fun _ => .ok "no info divs here"

/-- The record produced from hit_good when the index page has no
info-div matches. -/
def rec_good : Record :=
  { company_name := "Good Co (GOOD)", cik := "123", filing_date := "2024-01-02",
    form_type := "8-K",
    filing_href := "https://www.sec.gov/Archives/edgar/data/123/000124000001/0001-24-000001-index.htm",
    document_href := "https://www.sec.gov/Archives/edgar/data/123/000124000001/doc.htm",
    ticker := "GOOD", published_timestamp := none }

/-- One widening iteration at the given deltas finds a valid price
pair: the window is non-degenerate, the download succeeds with a
non-empty frame, the window-end date is in the index, both boundary
closes resolve, and the window-start close is non-zero (so no
ZeroDivisionError). This packages the success conditions of the loop
body for the exhaustion theorem. -/
def iter_succeeds (dl : String → ℤ → ℤ → Except Err (List (ℤ × ℚ)))
    (t : String) (fd : ℤ) (sd ed : ℕ) : Bool :=
  let dr := bdaysIn (fd - sd) (fd + ed)
  match dr.head?, dr.getLast? with
  | some mn, some mx =>
    match dl t mn (mx + 1) with
    | .error _ => false
    | .ok df =>
      !df.isEmpty && (lookupClose mx df).isSome &&
        (match lookupClose mn df with
         | some b => !(decide (b = 0))
         | none => false)
  | _, _ => false

/-
Sanity checks of the embedded scanning primitives and oracles.
-/

example : splitOnChar ':' "a:b".data = ["a".data, "b".data] := by decide
example : splitOnChar ':' "abc".data = ["abc".data] := by decide
example : splitOnChar ':' "x:".data = ["x".data, "".data] := by decide
example : firstParenGroup "Acme Corp (ACME, Inc.)".data = some "ACME, Inc.".data := by decide
example : firstParenGroup "Acme Corp".data = none := by decide
example : findAllInfo "<div class=\"info\">a</div>x<div class=\"info\">b</div>".data
    = ["a".data, "b".data] := by decide
example : processHit fetch_ok hit_good = .ok rec_good := by decide
example : analyze_impact dl_widen parse_wed 100 (some "T") "x"
    = (some 10, some 20, some ((20 - 10) / 10 * 100)) := rfl
example : get_filings search_one fetch_fail "2024-01-01" "2024-06-30" 999999
    = .error .httpErr := by decide
theorem captureNG_length_le (close : List Char) :
    ∀ s cap r, captureNG close s = some (cap, r) → r.length ≤ s.length := by
  intro s
  induction s with
  | nil =>
    intro cap r h
    simp only [captureNG] at h
    split at h
    · simp only [Option.some.injEq, Prod.mk.injEq] at h
      obtain ⟨h1, h2⟩ := h
      subst h2
      simp
    · simp at h
  | cons c rest ih =>
    intro cap r h
    simp only [captureNG] at h
    split at h
    · simp only [Option.some.injEq, Prod.mk.injEq] at h
      obtain ⟨h1, h2⟩ := h
      subst h2
      simp [List.length_drop]
    · split at h
      · simp at h
      · cases hrec : captureNG close rest with
        | none => simp [hrec] at h
        | some pr =>
          simp [hrec] at h
          obtain ⟨h1, h2⟩ := h
          subst h2
          have := ih pr.1 pr.2 (by simp [hrec])
          simp
          omega

/-
Claim theorems.
-/

/-- C8: ticker extraction parses the first parenthesised group of the
display name; a non CIK-shaped group yields the text before its first
comma, while a missing group or a CIK-shaped group leaves the ticker
N/A; in particular the three concrete examples of the claim. -/
theorem c8_ticker_extraction :
    extract_ticker ["Acme Corp (ACME, Inc.)"] = "ACME" ∧
    extract_ticker ["Acme Corp (CIK 0001234567)"] = "N/A" ∧
    extract_ticker ["Acme Corp"] = "N/A" ∧
    (∀ (n : String) (rest : List String), firstParenGroup n.data = none →
       extract_ticker (n :: rest) = "N/A") ∧
    (∀ (n : String) (rest : List String) (g : List Char),
       firstParenGroup n.data = some g → startsWithSeq "CIK ".data g = true →
       extract_ticker (n :: rest) = "N/A") ∧
    (∀ (n : String) (rest : List String) (g : List Char),
       firstParenGroup n.data = some g → startsWithSeq "CIK ".data g = false →
       extract_ticker (n :: rest) = String.mk (takeUntil ',' g)) := by
  refine ⟨by decide, by decide, by decide, ?_, ?_, ?_⟩
  · intro n rest h
    simp [extract_ticker, h]
  · intro n rest g hg hcik
    simp [extract_ticker, hg, hcik]
  · intro n rest g hg hcik
    simp [extract_ticker, hg, hcik]

/-- Witness for C8: the general comma clause applied to a concrete
display name. -/
theorem c8_witness :
    extract_ticker ["Foo Industries (BAR, Class A)"] = String.mk (takeUntil ',' "BAR, Class A".data) :=
  c8_ticker_extraction.2.2.2.2.2 "Foo Industries (BAR, Class A)" []
    "BAR, Class A".data (by decide) (by decide)

/-- C9: the two URLs are computed purely from cik, dash-stripped
accession number and document id in the fixed Archives layout: the
concrete filing_href of the claim, the document_href suffix of the
claim, and the fact that every successfully processed hit carries
exactly these derived URLs. -/
theorem c9_url_derivation :
    filingHrefOf "320193" "0000320193-24-000010"
      = "https://www.sec.gov/Archives/edgar/data/320193/000032019324000010/0000320193-24-000010-index.htm" ∧
    (∃ p, documentHrefOf "320193" "0000320193-24-000010" "doc1.htm"
      = p ++ "/000032019324000010/doc1.htm") ∧
    (∀ fetch f r, processHit fetch f = .ok r →
       r.filing_href = filingHrefOf (f.source.ciks.headD "N/A") (f.source.adsh.getD "N/A") ∧
       ∀ d, docIdOf f.id = .ok d →
         r.document_href
           = documentHrefOf (f.source.ciks.headD "N/A") (f.source.adsh.getD "N/A") d) := by
  refine ⟨by decide, ⟨"https://www.sec.gov/Archives/edgar/data/320193", by decide⟩, ?_⟩
  intro fetch f r h
  simp only [processHit] at h
  cases hd : docIdOf f.id with
  | error e => rw [hd] at h; cases h
  | ok d =>
    rw [hd] at h
    cases hts : get_timestamp_from_index fetch
        (filingHrefOf (f.source.ciks.headD "N/A") (f.source.adsh.getD "N/A")) with
    | error e => rw [hts] at h; cases h
    | ok ts =>
      rw [hts] at h
      cases h
      refine ⟨rfl, ?_⟩
      intro d2 hd2
      injection hd2 with hdd
      subst hdd
      rfl

/-- Witness for C9: the URL clause applied to the concrete processed
hit. -/
theorem c9_witness :
    rec_good.filing_href = filingHrefOf "123" "0001-24-000001" ∧
    rec_good.document_href = documentHrefOf "123" "0001-24-000001" "doc.htm" := by
  have h := c9_url_derivation.2.2 fetch_ok hit_good rec_good (by decide)
  exact ⟨h.1, h.2 "doc.htm" (by decide)⟩

/-- Every value of the widening loop is the all-null triple or a triple
of three populated fields. -/
theorem impact_loop_shape (dl : String → ℤ → ℤ → Except Err (List (ℤ × ℚ)))
    (t : String) (fd : ℤ) :
    ∀ fuel sd ed,
      analyze_impact_loop dl t fd fuel sd ed = (none, none, none) ∨
      ∃ b a p, analyze_impact_loop dl t fd fuel sd ed = (some b, some a, some p) := by
  intro fuel
  induction fuel with
  | zero => intro sd ed; left; rfl
  | succ n ih =>
    intro sd ed
    simp only [analyze_impact_loop]
    repeat' split
    all_goals first
    | (left; rfl)
    | (exact ih _ _)
    | (right; exact ⟨_, _, _, rfl⟩)

/-- Every value of analyze_impact is the all-null triple or a fully
populated triple. -/
theorem analyze_impact_shape (dl : String → ℤ → ℤ → Except Err (List (ℤ × ℚ)))
    (pd : String → Option ℤ) (today : ℤ) (ticker : Option String) (d : String) :
    analyze_impact dl pd today ticker d = (none, none, none) ∨
    ∃ b a p, analyze_impact dl pd today ticker d = (some b, some a, some p) := by
  simp only [analyze_impact]
  repeat' split
  all_goals first
  | (left; rfl)
  | (exact impact_loop_shape _ _ _ _ _ _)

/-- C4: every record of the assembled report has its three price fields
all null or all populated; no partial triple is reachable. -/
theorem c4_price_triple_all_or_nothing :
    ∀ (dl : String → ℤ → ℤ → Except Err (List (ℤ × ℚ))) (pd : String → Option ℤ)
      (today : ℤ) (filings : List Record) (er : EnrichedRecord),
      er ∈ build_results dl pd today filings →
      (er.price_before = none ∧ er.price_after = none ∧ er.pct_change = none) ∨
      (er.price_before.isSome = true ∧ er.price_after.isSome = true ∧
        er.pct_change.isSome = true) := by
  intro dl pd today filings er hmem
  simp only [build_results, List.mem_map] at hmem
  obtain ⟨r, hr, hrm⟩ := hmem
  subst hrm
  obtain hsh | ⟨b, a, p, hsh⟩ := analyze_impact_shape dl pd today (some r.ticker) (tsFor r)
  · left
    simp [enrich, hsh]
  · right
    simp [enrich, hsh]

/-- Witness for C4: the triple shape at a concrete report. -/
theorem c4_witness :
    ((enrich dl_widen parse_wed 100 rec_good).price_before = none ∧
      (enrich dl_widen parse_wed 100 rec_good).price_after = none ∧
      (enrich dl_widen parse_wed 100 rec_good).pct_change = none) ∨
    ((enrich dl_widen parse_wed 100 rec_good).price_before.isSome = true ∧
      (enrich dl_widen parse_wed 100 rec_good).price_after.isSome = true ∧
      (enrich dl_widen parse_wed 100 rec_good).pct_change.isSome = true) :=
  c4_price_triple_all_or_nothing dl_widen parse_wed 100 [rec_good]
    (enrich dl_widen parse_wed 100 rec_good) (by simp [build_results])

/-- Characterisation of a successful widening search: the returned
prices are the closing prices of some downloaded frame at the first and
last business day of a reachable window, and the percentage is computed
from them by the source formula. -/
theorem impact_loop_success (dl : String → ℤ → ℤ → Except Err (List (ℤ × ℚ)))
    (t : String) (fd : ℤ) :
    ∀ fuel sd ed b a p,
      analyze_impact_loop dl t fd fuel sd ed = (some b, some a, some p) →
      p = (a - b) / b * 100 ∧ b ≠ 0 ∧
      ∃ sd2 ed2 df mn mx, sd ≤ sd2 ∧ ed ≤ ed2 ∧ sd2 + ed2 < 10 ∧
        (bdaysIn (fd - sd2) (fd + ed2)).head? = some mn ∧
        (bdaysIn (fd - sd2) (fd + ed2)).getLast? = some mx ∧
        dl t mn (mx + 1) = .ok df ∧
        lookupClose mn df = some b ∧ lookupClose mx df = some a := by
  intro fuel
  induction fuel with
  | zero => intro sd ed b a p h; cases h
  | succ n ih =>
    intro sd ed b a p h
    simp only [analyze_impact_loop] at h
    split at h
    case isFalse => cases h
    case isTrue hlt =>
    split at h
    case h_2 => cases h
    case h_1 mn mx hmn hmx =>
    split at h
    case h_1 => cases h
    case h_2 e df hdl =>
    split at h
    case isTrue =>
      obtain ⟨h1, h2, h3⟩ := ih _ _ _ _ _ h
      exact ⟨h1, h2, by
        obtain ⟨sd2, ed2, rest⟩ := h3
        exact ⟨sd2, ed2, by
          obtain ⟨df2, mn2, mx2, hs, he, hrest⟩ := rest
          exact ⟨df2, mn2, mx2, by omega, by omega, hrest⟩⟩⟩
    case isFalse =>
    split at h
    case isTrue =>
      obtain ⟨h1, h2, h3⟩ := ih _ _ _ _ _ h
      exact ⟨h1, h2, by
        obtain ⟨sd2, ed2, df2, mn2, mx2, hs, he, hrest⟩ := h3
        exact ⟨sd2, ed2, df2, mn2, mx2, by omega, by omega, hrest⟩⟩
    case isFalse =>
    split at h
    case h_2 =>
      obtain ⟨h1, h2, h3⟩ := ih _ _ _ _ _ h
      exact ⟨h1, h2, by
        obtain ⟨sd2, ed2, df2, mn2, mx2, hs, he, hrest⟩ := h3
        exact ⟨sd2, ed2, df2, mn2, mx2, by omega, by omega, hrest⟩⟩
    case h_1 before after hb ha =>
    split at h
    case isTrue =>
      obtain ⟨h1, h2, h3⟩ := ih _ _ _ _ _ h
      exact ⟨h1, h2, by
        obtain ⟨sd2, ed2, df2, mn2, mx2, hs, he, hrest⟩ := h3
        exact ⟨sd2, ed2, df2, mn2, mx2, by omega, by omega, hrest⟩⟩
    case isFalse h0 =>
      simp only [Prod.mk.injEq, Option.some.injEq] at h
      obtain ⟨hb3, ha3, hp3⟩ := h
      subst hb3
      subst ha3
      subst hp3
      exact ⟨rfl, h0, sd, ed, df, mn, mx, le_refl _, le_refl _, hlt, hmn, hmx, hdl, hb, ha⟩
/-- C5: whenever analyze_impact returns a populated triple, the
percentage equals (after minus before) over before times one hundred,
where before and after are the closing prices of the downloaded frame at
the window-start and window-end business days of the successful
window. -/
theorem c5_pct_change_formula :
    ∀ (dl : String → ℤ → ℤ → Except Err (List (ℤ × ℚ))) (pd : String → Option ℤ)
      (today : ℤ) (ticker : Option String) (d : String) (b a p : ℚ),
      analyze_impact dl pd today ticker d = (some b, some a, some p) →
      p = (a - b) / b * 100 ∧ b ≠ 0 ∧
      ∃ (t : String) (fd : ℤ) (sd ed : ℕ) (df : List (ℤ × ℚ)) (mn mx : ℤ),
        ticker = some t ∧ pd d = some fd ∧ sd + ed < 10 ∧
        (bdaysIn (fd - sd) (fd + ed)).head? = some mn ∧
        (bdaysIn (fd - sd) (fd + ed)).getLast? = some mx ∧
        dl t mn (mx + 1) = .ok df ∧
        lookupClose mn df = some b ∧ lookupClose mx df = some a := by
  intro dl pd today ticker d b a p h
  cases ticker with
  | none => cases h
  | some t =>
    simp only [analyze_impact] at h
    split at h
    case isTrue => cases h
    case isFalse hne =>
    split at h
    case h_1 => cases h
    case h_2 fd hpd =>
      split at h
      case isTrue => cases h
      case isFalse hft =>
      obtain ⟨h1, h2, sd2, ed2, df, mn, mx, hs, he, hlt, hmn, hmx, hdl, hb, ha⟩ :=
        impact_loop_success dl t fd 5 1 1 b a p h
      exact ⟨h1, h2, t, fd, sd2, ed2, df, mn, mx, rfl, hpd, hlt, hmn, hmx, hdl, hb, ha⟩

/-- Witness for C5: the formula clause at a concrete successful run. -/
theorem c5_witness :
    ((20 : ℚ) - 10) / 10 * 100 = ((20 : ℚ) - 10) / 10 * 100 ∧ (10 : ℚ) ≠ 0 :=
  have h := c5_pct_change_formula dl_first parse_wed 100 (some "T") "x" 10 20
    ((20 - 10) / 10 * 100) rfl
  ⟨h.1, h.2.1⟩

/-- One unit of extra fuel is irrelevant as soon as the remaining
distance to the span limit is covered: the embedded loop computes the
same value, which is the termination argument for the while loop. -/
theorem impact_loop_fuel_step (dl : String → ℤ → ℤ → Except Err (List (ℤ × ℚ)))
    (t : String) (fd : ℤ) :
    ∀ n sd ed, 10 ≤ sd + ed + 2 * n →
      analyze_impact_loop dl t fd (n + 1) sd ed = analyze_impact_loop dl t fd n sd ed := by
  intro n
  induction n with
  | zero =>
    intro sd ed hge
    simp only [analyze_impact_loop]
    rw [if_neg (by omega)]
  | succ n ih =>
    intro sd ed hge
    by_cases hc : sd + ed < 10
    · conv_lhs => rw [analyze_impact_loop]
      conv_rhs => rw [analyze_impact_loop]
      rw [if_pos hc, if_pos hc, ih (sd + 1) (ed + 1) (by omega)]
    · conv_lhs => rw [analyze_impact_loop]
      conv_rhs => rw [analyze_impact_loop]
      rw [if_neg hc, if_neg hc]

/-- The widening loop run from the wrapper fuel computes the same value
at any larger fuel: the embedded analysis is fuel-independent. -/
theorem impact_loop_fuel_stable (dl : String → ℤ → ℤ → Except Err (List (ℤ × ℚ)))
    (t : String) (fd : ℤ) :
    ∀ k, analyze_impact_loop dl t fd (5 + k) 1 1 = analyze_impact_loop dl t fd 5 1 1 := by
  intro k
  induction k with
  | zero => rfl
  | succ k ih =>
    have step := impact_loop_fuel_step dl t fd (5 + k) 1 1 (by omega)
    have e1 : 5 + (k + 1) = (5 + k) + 1 := by omega
    rw [e1, step, ih]

/-- If no reachable widening iteration finds a valid price pair, the
loop returns the all-null triple. -/
theorem impact_loop_all_fail (dl : String → ℤ → ℤ → Except Err (List (ℤ × ℚ)))
    (t : String) (fd : ℤ) :
    ∀ fuel sd ed,
      (∀ k : ℕ, sd + k + (ed + k) < 10 → iter_succeeds dl t fd (sd + k) (ed + k) = false) →
      analyze_impact_loop dl t fd fuel sd ed = (none, none, none) := by
  intro fuel
  induction fuel with
  | zero => intro sd ed hall; rfl
  | succ n ih =>
    intro sd ed hall
    have hall2 : ∀ k : ℕ, (sd + 1) + k + ((ed + 1) + k) < 10 →
        iter_succeeds dl t fd ((sd + 1) + k) ((ed + 1) + k) = false := by
      intro k hk
      have e1 : sd + 1 + k = sd + (k + 1) := by omega
      have e2 : ed + 1 + k = ed + (k + 1) := by omega
      rw [e1, e2]
      exact hall (k + 1) (by omega)
    conv_lhs => rw [analyze_impact_loop]
    by_cases hc : sd + ed < 10
    · rw [if_pos hc]
      have h0 : iter_succeeds dl t fd sd ed = false := by simpa using hall 0 (by omega)
      simp only [iter_succeeds] at h0
      cases hmn : (bdaysIn (fd - (sd : ℤ)) (fd + (ed : ℤ))).head? with
      | none => simp [hmn]
      | some mn =>
        cases hmx : (bdaysIn (fd - (sd : ℤ)) (fd + (ed : ℤ))).getLast? with
        | none => simp [hmn, hmx]
        | some mx =>
          simp only [hmn, hmx] at h0
          simp only [hmn, hmx]
          cases hdl : dl t mn (mx + 1) with
          | error e => simp [hdl]
          | ok df =>
            simp only [hdl] at h0
            simp only [hdl]
            cases hdf : df.isEmpty with
            | true => simp [hdf]; exact ih _ _ hall2
            | false =>
              simp only [hdf, Bool.not_false, Bool.true_and] at h0
              rw [if_neg Bool.false_ne_true]
              cases hlx : lookupClose mx df with
              | none => simp [hlx]; exact ih _ _ hall2
              | some av =>
                simp only [hlx, Option.isSome_some, Bool.true_and] at h0
                cases hln : lookupClose mn df with
                | none => simp [hlx, hln]; exact ih _ _ hall2
                | some bv =>
                  simp only [hln] at h0
                  have hbz : bv = 0 := by simpa using h0
                  simp [hlx, hln, hbz]
                  exact ih _ _ hall2
    · rw [if_neg hc]

/-- C6: the widening search terminates: the guard stops the loop as
soon as the combined span reaches 10 (returning all-null at once), the
result is independent of any extra fuel beyond the wrapper's (so the
while loop cannot run forever), and when no reachable width from the
initial deltas one and one finds a valid pair the search returns the
all-null triple. -/
theorem c6_widening_search_terminates :
    (∀ (dl : String → ℤ → ℤ → Except Err (List (ℤ × ℚ))) (t : String) (fd : ℤ)
       (fuel sd ed : ℕ), 10 ≤ sd + ed →
       analyze_impact_loop dl t fd (fuel + 1) sd ed = (none, none, none)) ∧
    (∀ (dl : String → ℤ → ℤ → Except Err (List (ℤ × ℚ))) (t : String) (fd : ℤ) (k : ℕ),
       analyze_impact_loop dl t fd (5 + k) 1 1 = analyze_impact_loop dl t fd 5 1 1) ∧
    (∀ (dl : String → ℤ → ℤ → Except Err (List (ℤ × ℚ))) (t : String) (fd : ℤ),
       (∀ k : ℕ, k < 4 → iter_succeeds dl t fd (1 + k) (1 + k) = false) →
       analyze_impact_loop dl t fd 5 1 1 = (none, none, none)) := by
  refine ⟨?_, ?_, ?_⟩
  · intro dl t fd fuel sd ed hge
    conv_lhs => rw [analyze_impact_loop]
    rw [if_neg (by omega)]
  · intro dl t fd k
    exact impact_loop_fuel_stable dl t fd k
  · intro dl t fd hall
    refine impact_loop_all_fail dl t fd 5 1 1 ?_
    intro k hk
    exact hall k (by omega)

/-- Witness for C6: the guard clause and the exhaustion clause at the
always-failing price oracle. -/
theorem c6_witness :
    analyze_impact_loop dl_fail "T" 2 1 5 5 = (none, none, none) ∧
    analyze_impact_loop dl_fail "T" 2 5 1 1 = (none, none, none) :=
  ⟨c6_widening_search_terminates.1 dl_fail "T" 2 0 5 5 (by omega),
   c6_widening_search_terminates.2.2 dl_fail "T" 2 (by decide)⟩

/-- C7: the pagination loop stops without issuing any further request
when the cumulative count has reached max_results, when a page returns
zero hits, when a page returns fewer hits than the page size, or when
the reported total-available count is reached, in each case returning
the records accumulated so far (plus the just-processed page in the
latter two cases). -/
theorem c7_pagination_stop_conditions :
    (∀ (search : Query → Except Err SearchPage) (fetch : String → Except Err String)
       (sd ed : String) (m fuel fetched : ℕ) (tot : Option ℕ) (acc : List Record),
       m ≤ fetched →
       get_filings_loop search fetch sd ed m (fuel + 1) fetched tot acc = .ok acc) ∧
    (∀ (search : Query → Except Err SearchPage) (fetch : String → Except Err String)
       (sd ed : String) (m fuel fetched : ℕ) (tot : Option ℕ) (acc : List Record)
       (page : SearchPage), fetched < m →
       search (build_query sd ed fetched) = .ok page → page.hits.isEmpty = true →
       get_filings_loop search fetch sd ed m (fuel + 1) fetched tot acc = .ok acc) ∧
    (∀ (search : Query → Except Err SearchPage) (fetch : String → Except Err String)
       (sd ed : String) (m fuel fetched : ℕ) (tot : Option ℕ) (acc : List Record)
       (page : SearchPage) (recs : List Record), fetched < m →
       search (build_query sd ed fetched) = .ok page → page.hits.isEmpty = false →
       processHits fetch page.hits = .ok recs →
       (tot.getD page.total ≤ fetched + page.hits.length ∨ page.hits.length < page_size) →
       get_filings_loop search fetch sd ed m (fuel + 1) fetched tot acc
         = .ok (acc ++ recs)) := by
  refine ⟨?_, ?_, ?_⟩
  · intro search fetch sd ed m fuel fetched tot acc hge
    simp only [get_filings_loop]
    rw [if_neg (by omega)]
  · intro search fetch sd ed m fuel fetched tot acc page hlt hs hempty
    simp only [get_filings_loop]
    rw [if_pos hlt]
    simp [hs, hempty]
  · intro search fetch sd ed m fuel fetched tot acc page recs hlt hs hne hproc hstop
    simp only [get_filings_loop]
    rw [if_pos hlt]
    simp only [hs]
    simp only [hne, Bool.false_eq_true, if_false]
    simp only [hproc]
    rw [if_pos hstop]

/-- Witness for C7: the three stop conditions at concrete oracles: a
reached max_results, an empty page, and a short page. -/
theorem c7_witness :
    get_filings_loop search_one fetch_ok "a" "b" 0 1 0 none [] = .ok [] ∧
    get_filings_loop search_one fetch_ok "a" "b" 5 1 1 (some 1) [] = .ok [] ∧
    get_filings_loop search_one fetch_ok "a" "b" 5 1 0 none [] = .ok ([] ++ [rec_good]) :=
  ⟨c7_pagination_stop_conditions.1 search_one fetch_ok "a" "b" 0 0 0 none [] (by omega),
   c7_pagination_stop_conditions.2.1 search_one fetch_ok "a" "b" 5 0 1 (some 1) []
     { hits := [], total := 1 } (by omega) (by decide) (by decide),
   c7_pagination_stop_conditions.2.2 search_one fetch_ok "a" "b" 5 0 0 none []
     { hits := [hit_good], total := 1 } [rec_good] (by omega) (by decide) (by decide)
     (by decide) (by decide)⟩

/-- Processing a page of hits yields one record per hit. -/
theorem processHits_length (fetch : String → Except Err String) :
    ∀ (hits : List Hit) (recs : List Record),
      processHits fetch hits = .ok recs → recs.length = hits.length := by
  intro hits
  induction hits with
  | nil =>
    intro recs h
    simp only [processHits] at h
    cases h
    rfl
  | cons f fs ih =>
    intro recs h
    simp only [processHits] at h
    cases hph : processHit fetch f with
    | error e => simp only [hph] at h; cases h
    | ok r =>
      simp only [hph] at h
      cases hrest : processHits fetch fs with
      | error e => simp only [hrest] at h; cases h
      | ok rs =>
        simp only [hrest] at h
        cases h
        simp [ih rs hrest]

/-- Length bound for the pagination loop: starting from a given
accumulator and offset, at most m - fetched plus one page worth of
records minus one can still be appended, provided the search service
honours the requested page size. -/
theorem get_filings_loop_length (search : Query → Except Err SearchPage)
    (fetch : String → Except Err String) (sd ed : String) (m : ℕ)
    (hB : ∀ q page, search q = .ok page → page.hits.length ≤ page_size) :
    ∀ (fuel fetched : ℕ) (tot : Option ℕ) (acc rs : List Record),
      get_filings_loop search fetch sd ed m fuel fetched tot acc = .ok rs →
      rs.length ≤ acc.length + (m - fetched) + (page_size - 1) := by
  have hps : page_size = 100 := rfl
  intro fuel
  induction fuel with
  | zero =>
    intro fetched tot acc rs h
    simp only [get_filings_loop] at h
    cases h
    omega
  | succ n ih =>
    intro fetched tot acc rs h
    simp only [get_filings_loop] at h
    by_cases hm : fetched < m
    · rw [if_pos hm] at h
      cases hs : search (build_query sd ed fetched) with
      | error e => simp only [hs] at h; cases h
      | ok page =>
        simp only [hs] at h
        by_cases hemp : page.hits.isEmpty = true
        · rw [if_pos hemp] at h
          cases h
          omega
        · rw [if_neg hemp] at h
          cases hp : processHits fetch page.hits with
          | error e => simp only [hp] at h; cases h
          | ok recs =>
            simp only [hp] at h
            have hlen := processHits_length fetch page.hits recs hp
            have hle := hB _ _ hs
            by_cases hstop : tot.getD page.total ≤ fetched + page.hits.length ∨
                page.hits.length < page_size
            · rw [if_pos hstop] at h
              cases h
              simp only [List.length_append]
              omega
            · rw [if_neg hstop] at h
              by_cases hm2 : fetched + page.hits.length < m
              · have hrec := ih (fetched + page.hits.length) (some (tot.getD page.total))
                  (acc ++ recs) rs h
                simp only [List.length_append] at hrec
                omega
              · cases n with
                | zero =>
                  simp only [get_filings_loop] at h
                  cases h
                  simp only [List.length_append]
                  omega
                | succ k =>
                  simp only [get_filings_loop] at h
                  rw [if_neg hm2] at h
                  cases h
                  simp only [List.length_append]
                  omega
    · rw [if_neg hm] at h
      cases h
      omega

/-- C10: get_filings does not truncate to max_results: there is an
input where the returned batch is strictly longer than max_results, and
in general the excess is bounded by one page size minus one provided the
search service honours the requested page size. -/
theorem c10_results_may_exceed_max_results :
    (∃ rs, get_filings search_two fetch_ok "a" "b" 1 = .ok rs ∧ 1 < rs.length) ∧
    (∀ (search : Query → Except Err SearchPage) (fetch : String → Except Err String)
       (sd ed : String) (m : ℕ) (rs : List Record),
       (∀ q page, search q = .ok page → page.hits.length ≤ page_size) →
       get_filings search fetch sd ed m = .ok rs →
       rs.length ≤ m + (page_size - 1)) := by
  constructor
  · exact ⟨[rec_good, rec_good], by decide, by decide⟩
  · intro search fetch sd ed m rs hB h
    have hb := get_filings_loop_length search fetch sd ed m hB (m + 1) 0 none [] rs h
    simpa using hb

/-- Witness for C10: the bound clause at the concrete overshooting
run. -/
theorem c10_witness :
    [rec_good, rec_good].length ≤ 1 + (page_size - 1) :=
  c10_results_may_exceed_max_results.2 search_two fetch_ok "a" "b" 1 [rec_good, rec_good]
    (by intro q page h
        simp only [search_two] at h
        split at h <;> (cases h; decide))
    (by decide)

/-- C1 counterexample: a batch with one filing whose index-page fetch
fails with an HTTP error makes get_filings return that error: the
failure propagates out of get_filings and no record with a null
published_timestamp is produced, contradicting the claim that such a
failure degrades the timestamp and the batch continues. -/
theorem c1_counterexample :
    get_filings search_one fetch_fail "2024-01-01" "2024-06-30" 999999
      = .error .httpErr := by decide

/-- C1 as amended: an HTTP error on a filing's index page propagates
out of the per-hit processing and out of the pagination loop, aborting
the batch; only a successfully fetched page with fewer than two info-div
matches degrades published_timestamp to null, in which case the batch
continues with the remaining filings. -/
theorem c1_amended_index_failure_semantics :
    (∀ (fetch : String → Except Err String) (f : Hit) (d : String) (e : Err),
       docIdOf f.id = .ok d →
       fetch (filingHrefOf (f.source.ciks.headD "N/A") (f.source.adsh.getD "N/A"))
         = .error e →
       processHit fetch f = .error e) ∧
    (∀ (search : Query → Except Err SearchPage) (fetch : String → Except Err String)
       (sd ed : String) (m fuel fetched : ℕ) (tot : Option ℕ) (acc : List Record)
       (page : SearchPage) (e : Err), fetched < m →
       search (build_query sd ed fetched) = .ok page → page.hits.isEmpty = false →
       processHits fetch page.hits = .error e →
       get_filings_loop search fetch sd ed m (fuel + 1) fetched tot acc = .error e) ∧
    (∀ (fetch : String → Except Err String) (f : Hit) (d : String) (page : String)
       (rest : List Hit),
       docIdOf f.id = .ok d →
       fetch (filingHrefOf (f.source.ciks.headD "N/A") (f.source.adsh.getD "N/A"))
         = .ok page →
       (findAllInfo page.data).length < 2 →
       ∃ r, processHit fetch f = .ok r ∧ r.published_timestamp = none ∧
         processHits fetch (f :: rest)
           = (processHits fetch rest).map (fun rs => r :: rs)) := by
  refine ⟨?_, ?_, ?_⟩
  · intro fetch f d e hd hf
    simp only [processHit, hd, get_timestamp_from_index, hf]
  · intro search fetch sd ed m fuel fetched tot acc page e hlt hs hne hp
    simp only [get_filings_loop]
    rw [if_pos hlt]
    simp only [hs, hne, Bool.false_eq_true, if_false, hp]
  · intro fetch f d page rest hd hf hlen
    have hpp : parse_published page = none := by
      simp only [parse_published]
      rw [if_neg (by omega)]
    have hph : processHit fetch f = .ok
        { company_name := f.source.display_names.headD "N/A",
          cik := f.source.ciks.headD "N/A",
          filing_date := f.source.file_date.getD "N/A",
          form_type := f.source.form.getD "N/A",
          filing_href := filingHrefOf (f.source.ciks.headD "N/A") (f.source.adsh.getD "N/A"),
          document_href := documentHrefOf (f.source.ciks.headD "N/A")
            (f.source.adsh.getD "N/A") d,
          ticker := extract_ticker f.source.display_names,
          published_timestamp := none } := by
      simp only [processHit, hd, get_timestamp_from_index, hf, hpp]
    refine ⟨_, hph, rfl, ?_⟩
    simp only [processHits, hph]
    cases hrest : processHits fetch rest with
    | error e => rfl
    | ok rs => rfl

/-- Witness for C1 amended: the propagation clause at the failing fetch
oracle and the degrade clause at a fetched page with no info divs. -/
theorem c1_witness :
    processHit fetch_fail hit_good = .error .httpErr ∧
    ∃ r, processHit fetch_ok hit_good = .ok r ∧ r.published_timestamp = none ∧
      processHits fetch_ok [hit_good]
        = (processHits fetch_ok []).map (fun rs => r :: rs) :=
  ⟨c1_amended_index_failure_semantics.1 fetch_fail hit_good "doc.htm" .httpErr
     (by decide) (by decide),
   c1_amended_index_failure_semantics.2.2 fetch_ok hit_good "doc.htm"
     "no info divs here" [] (by decide) (by decide) (by decide)⟩

/-- C2 counterexample: a hit whose _id field is present and non-empty
but lacks the colon separator makes the per-hit processing raise an
IndexError instead of degrading the document id to the N/A sentinel,
contradicting the claim that processing a hit never raises for a
malformed field. -/
theorem c2_counterexample :
    processHit fetch_ok hit_bad_id = .error .indexErr := by decide

/-- C2 as amended: missing upstream fields (absent display names, CIKs,
file date, form, accession number, and an absent or empty _id) degrade
to the N/A sentinel and never raise, and a colon-separated _id is
parsed; but a present non-empty _id without a colon separator raises an
IndexError that aborts processing. -/
theorem c2_amended_missing_field_semantics :
    (∀ (fetch : String → Except Err String) (page : String),
       fetch (filingHrefOf "N/A" "N/A") = .ok page →
       ∃ r, processHit fetch hit_empty = .ok r ∧ r.company_name = "N/A" ∧
         r.cik = "N/A" ∧ r.filing_date = "N/A" ∧ r.form_type = "N/A" ∧
         r.ticker = "N/A" ∧ r.document_href = documentHrefOf "N/A" "N/A" "N/A") ∧
    (∀ (fetch : String → Except Err String) (f : Hit),
       (f.id = none ∨ f.id = some "" ∨ 2 ≤ (splitOnChar ':' ((f.id.getD "").data)).length) →
       (∃ page, fetch (filingHrefOf (f.source.ciks.headD "N/A")
          (f.source.adsh.getD "N/A")) = .ok page) →
       ∃ r, processHit fetch f = .ok r) ∧
    (∀ (fetch : String → Except Err String) (f : Hit) (s : String),
       f.id = some s → s ≠ "" → (splitOnChar ':' s.data).length < 2 →
       processHit fetch f = .error .indexErr) := by
  refine ⟨?_, ?_, ?_⟩
  · intro fetch page hf
    refine ⟨{ company_name := "N/A", cik := "N/A", filing_date := "N/A",
              form_type := "N/A", filing_href := filingHrefOf "N/A" "N/A",
              document_href := documentHrefOf "N/A" "N/A" "N/A", ticker := "N/A",
              published_timestamp := parse_published page },
            ?_, rfl, rfl, rfl, rfl, rfl, rfl⟩
    simp only [processHit, hit_empty, docIdOf, get_timestamp_from_index, extract_ticker,
      List.headD_nil, Option.getD_none, hf]
  · intro fetch f hid hpage
    obtain ⟨page, hf⟩ := hpage
    have hdoc : ∃ d, docIdOf f.id = .ok d := by
      rcases hid with h1 | h1 | h1
      · exact ⟨"N/A", by rw [h1]; rfl⟩
      · exact ⟨"N/A", by rw [h1]; rfl⟩
      · cases hfid : f.id with
        | none => exact ⟨"N/A", rfl⟩
        | some s =>
          rw [hfid] at h1
          simp only [Option.getD_some] at h1
          by_cases hse : s = ""
          · exact ⟨"N/A", by simp [docIdOf, hse]⟩
          · cases hget : (splitOnChar ':' s.data)[1]? with
            | none =>
              exfalso
              have hl2 := List.getElem?_eq_none_iff.mp hget
              omega
            | some d =>
              exact ⟨String.mk d, by simp [docIdOf, hse, hget]⟩
    obtain ⟨d, hd⟩ := hdoc
    refine ⟨{ company_name := f.source.display_names.headD "N/A",
              cik := f.source.ciks.headD "N/A",
              filing_date := f.source.file_date.getD "N/A",
              form_type := f.source.form.getD "N/A",
              filing_href := filingHrefOf (f.source.ciks.headD "N/A")
                (f.source.adsh.getD "N/A"),
              document_href := documentHrefOf (f.source.ciks.headD "N/A")
                (f.source.adsh.getD "N/A") d,
              ticker := extract_ticker f.source.display_names,
              published_timestamp := parse_published page }, ?_⟩
    simp only [processHit, hd, get_timestamp_from_index, hf]
  · intro fetch f s hid hne hlen
    have hget : (splitOnChar ':' s.data)[1]? = none := by
      rw [List.getElem?_eq_none_iff]
      omega
    simp only [processHit, docIdOf, hid, if_neg hne, hget]

/-- Witness for C2 amended: the sentinel clause at the all-missing hit
and the never-raises clause at the well-formed hit. -/
theorem c2_witness :
    (∃ r, processHit fetch_ok hit_empty = .ok r ∧ r.company_name = "N/A" ∧
       r.cik = "N/A" ∧ r.filing_date = "N/A" ∧ r.form_type = "N/A" ∧
       r.ticker = "N/A" ∧ r.document_href = documentHrefOf "N/A" "N/A" "N/A") ∧
    ∃ r, processHit fetch_ok hit_good = .ok r :=
  ⟨c2_amended_missing_field_semantics.1 fetch_ok "no info divs here" (by decide),
   c2_amended_missing_field_semantics.2.1 fetch_ok hit_good
     (by right; right; decide) ⟨"no info divs here", by decide⟩⟩

/-- C3 counterexample: at the width one window the download succeeds
but the window-start close is missing from the frame (the KeyError
case); the function does not return the all-null triple: it widens the
window and returns a populated triple from the width two window,
contradicting the claim that any data-retrieval fault terminates the
search immediately with all-null. -/
theorem c3_counterexample :
    dl_widen "T" 1 4 = .ok [(3, 10)] ∧
    lookupClose 1 [(3, 10)] = none ∧
    analyze_impact dl_widen parse_wed 100 (some "T") "x"
      = (some 10, some 20, some ((20 - 10) / 10 * 100)) ∧
    analyze_impact dl_widen parse_wed 100 (some "T") "x" ≠ (none, none, none) :=
  ⟨by decide, by decide, rfl, by decide⟩

/-- C3 as amended: a transport fault (an exception raised by the price
download) during a widening iteration terminates the search immediately
with the all-null triple, but a fault in the boundary closing-price
lookups — a missing window-start close (KeyError) as well as a zero
window-start close (ZeroDivisionError, caught by the same except
clause), each with the window-end date present — widens the window by
one day on each side and retries instead of terminating. -/
theorem c3_amended_fault_semantics :
    (∀ (dl : String → ℤ → ℤ → Except Err (List (ℤ × ℚ))) (t : String) (fd : ℤ)
       (fuel sd ed : ℕ) (mn mx : ℤ) (e : Err), sd + ed < 10 →
       (bdaysIn (fd - sd) (fd + ed)).head? = some mn →
       (bdaysIn (fd - sd) (fd + ed)).getLast? = some mx →
       dl t mn (mx + 1) = .error e →
       analyze_impact_loop dl t fd (fuel + 1) sd ed = (none, none, none)) ∧
    (∀ (dl : String → ℤ → ℤ → Except Err (List (ℤ × ℚ))) (t : String) (fd : ℤ)
       (fuel sd ed : ℕ) (mn mx : ℤ) (df : List (ℤ × ℚ)), sd + ed < 10 →
       (bdaysIn (fd - sd) (fd + ed)).head? = some mn →
       (bdaysIn (fd - sd) (fd + ed)).getLast? = some mx →
       dl t mn (mx + 1) = .ok df → df.isEmpty = false →
       (lookupClose mx df).isSome = true → lookupClose mn df = none →
       analyze_impact_loop dl t fd (fuel + 1) sd ed
         = analyze_impact_loop dl t fd fuel (sd + 1) (ed + 1)) ∧
    (∀ (dl : String → ℤ → ℤ → Except Err (List (ℤ × ℚ))) (t : String) (fd : ℤ)
       (fuel sd ed : ℕ) (mn mx : ℤ) (df : List (ℤ × ℚ)), sd + ed < 10 →
       (bdaysIn (fd - sd) (fd + ed)).head? = some mn →
       (bdaysIn (fd - sd) (fd + ed)).getLast? = some mx →
       dl t mn (mx + 1) = .ok df → df.isEmpty = false →
       (lookupClose mx df).isSome = true → lookupClose mn df = some 0 →
       analyze_impact_loop dl t fd (fuel + 1) sd ed
         = analyze_impact_loop dl t fd fuel (sd + 1) (ed + 1)) := by
  refine ⟨?_, ?_, ?_⟩
  · intro dl t fd fuel sd ed mn mx e hlt hmn hmx hdl
    conv_lhs => rw [analyze_impact_loop]
    rw [if_pos hlt]
    simp only [hmn, hmx, hdl]
  · intro dl t fd fuel sd ed mn mx df hlt hmn hmx hdl hne hmxs hmnl
    conv_lhs => rw [analyze_impact_loop]
    rw [if_pos hlt]
    simp only [hmn, hmx, hdl, hne, Bool.false_eq_true, if_false]
    rw [if_neg (by
      simp only [Option.isNone_iff_eq_none]
      intro hcon
      rw [hcon] at hmxs
      cases hmxs)]
    simp only [hmnl]
  · intro dl t fd fuel sd ed mn mx df hlt hmn hmx hdl hne hmxs hmnl
    conv_lhs => rw [analyze_impact_loop]
    rw [if_pos hlt]
    simp only [hmn, hmx, hdl, hne, Bool.false_eq_true, if_false]
    rw [if_neg (by
      simp only [Option.isNone_iff_eq_none]
      intro hcon
      rw [hcon] at hmxs
      cases hmxs)]
    cases hlx : lookupClose mx df with
    | none => rw [hlx] at hmxs; cases hmxs
    | some av =>
      simp only [hmnl, hlx]
      rw [if_pos trivial]

/-- Witness for C3 amended: the transport clause at the failing oracle,
the KeyError widening clause at the oracle whose width one frame misses
the window start, and the zero-close widening clause at the oracle whose
window-start close is zero. -/
theorem c3_witness :
    analyze_impact_loop dl_fail "T" 2 1 1 1 = (none, none, none) ∧
    analyze_impact_loop dl_widen "T" 2 1 1 1
      = analyze_impact_loop dl_widen "T" 2 0 2 2 ∧
    analyze_impact_loop dl_zero "T" 2 1 1 1
      = analyze_impact_loop dl_zero "T" 2 0 2 2 :=
  ⟨c3_amended_fault_semantics.1 dl_fail "T" 2 0 1 1 1 3 .httpErr (by omega)
     (by decide) (by decide) (by decide),
   c3_amended_fault_semantics.2.1 dl_widen "T" 2 0 1 1 1 3 [(3, 10)] (by omega)
     (by decide) (by decide) (by decide) (by decide) (by decide) (by decide),
   c3_amended_fault_semantics.2.2 dl_zero "T" 2 0 1 1 1 3 [(1, 0), (3, 20)] (by omega)
     (by decide) (by decide) (by decide) (by decide) (by decide) (by decide)⟩

end Sec105Feed
